import Mathlib

/-!
Verification development for the multi-target social-media publish component
(`src/app/create-post/VideoUploadComponent.tsx`).  The component is embedded
shallowly: every remote call is an oracle (`Env`) returning `Except`, a publish
run is the list of observable events it issues, and the two per-destination
React state mappings are replayed from that event list with the exact update
semantics the source uses (`useState` setters applied to a fresh single-key
object literal, i.e. a full-mapping replace).  Promise chains are split at the
same points the source splits them into `.then` continuations, and the launch
phase (the synchronous part of each `forEach` body) is kept separate from the
settlement phase, which is the ordering the JavaScript event loop guarantees:
all synchronous state writes and call starts happen before any continuation
runs.
-/

namespace SocialQueue

/-- Per-destination processing state, source line 59:
`type ProcessingState = "processing" | "posted" | "error"`. -/
inductive ProcessingState
  | processing
  | posted
  | error
deriving DecidableEq, Repr

/-- The React state objects `instagramAccountIdToProcessingState` and
`youtubeChannelIdToProcessingState` are string-keyed mappings; modelled as
association lists read through `List.lookup`. -/
abbrev StateMap := List (String × ProcessingState)

/-- A state transition write as the source performs it, e.g. lines 264-267:
`setInstagramAccountIdToProcessingState(obj)` where `obj` is a fresh object
literal holding the single computed key `account.instagram_business_account_id`.
A React `useState` setter given a value (not an updater function) replaces the
state with that value, so the whole mapping becomes the one-key object. -/
def setStateMap (_old : StateMap) (key : String) (value : ProcessingState) : StateMap :=
  [(key, value)]

/-- Row of the `instagram-accounts` table as used by the component: the row id
and the Instagram business account id are distinct fields. -/
structure InstagramAccount where
  id : String
  instagram_business_account_id : String
deriving DecidableEq, Repr

/-- The Instagram account tile click handler, source lines 450-463.  Note the
membership test and the removal filter compare `acc.id` against
`account.instagram_business_account_id`. -/
def toggleInstagramAccount (prev : List InstagramAccount) (account : InstagramAccount) :
    List InstagramAccount :=
  if (prev.find? (fun acc => acc.id == account.instagram_business_account_id)).isSome then
    prev.filter (fun acc => acc.id != account.instagram_business_account_id)
  else
    prev ++ [account]

/-- An entry of the `files` component state (source line 76): the media file is
abbreviated to its MIME type string, which is all the orchestration logic reads
from it, plus the validation error message. -/
structure FileEntry where
  fileType : String
  errorMessage : String
deriving DecidableEq, Repr

/-- Whether the character list starts with the given pattern list. -/
def listStartsWith : List Char → List Char → Bool
  | _, [] => true
  | [], _ :: _ => false
  | a :: as, b :: bs => a == b && listStartsWith as bs

/-- Whether `sub` occurs contiguously inside the character list. -/
def listContainsSub (sub : List Char) : List Char → Bool
  | [] => sub.isEmpty
  | a :: tail => listStartsWith (a :: tail) sub || listContainsSub sub tail

/-- JavaScript `s.includes(sub)` on strings. -/
def strIncludes (s sub : String) : Bool :=
  listContainsSub sub.data s.data

/-- `file.type.includes("video") ? "video" : "image"` (source lines 260, 274,
346). -/
def postTypeOf (t : String) : String :=
  if strIncludes t "video" then "video" else "image"

/-- Observable actions of one publish run: the remote calls the component
issues, in order, and the React state writes it performs.  `createContainer`
records the arguments the source passes (`isCarouselItem` flag and whether a
`caption` field is present in the call). -/
inductive Event
  | createPost
  | upload (index : Nat)
  | createContainer (accountId filePath : String) (isCarouselItem : Bool)
      (caption : Option String) (postType : String)
  | checkStatus (accountId : String) (containerIds : List String)
  | createCarousel (accountId : String) (itemContainerIds : List String) (caption : String)
  | publishContainer (accountId containerId : String)
  | saveInstagramId (mediaId : String)
  | youtubeCall (channelId : String)
  | setIgState (accountId : String) (st : ProcessingState)
  | setYtState (channelId : String) (st : ProcessingState)
deriving DecidableEq, Repr

/-- Outcome oracle for the external collaborators.  Each field gives the result
of the corresponding remote call; `Except.error` is a rejected promise.
`youtubeFetch` distinguishes a transport-level rejection (`Except.error`) from
a response that resolved with `resp.ok` true or false.  `saveInstagramId` is
recorded although the source never inspects its result (the call is issued
without awaiting it). -/
structure Env where
  createSocialMediaPost : Except String String
  uploadFile : Nat → Except String String
  createContainer : String → String → Except String String
  checkStatus : String → List String → Except String Unit
  createCarouselContainer : String → List String → Except String String
  publishMediaContainer : String → String → Except String String
  saveInstagramId : String → Except String Unit
  youtubeFetch : String → Except String Bool

/-- Synchronous part of the per-account body of the single-item Instagram
fan-out (source lines 337-348): write `processing` into the state mapping, then
start `createInstagramContainer` with the shared file path, the caption and
`isCarouselItem: false`. -/
def igSingleLaunch (accountId filePath fileType caption : String) : List Event :=
  [Event.setIgState accountId ProcessingState.processing,
   Event.createContainer accountId filePath false (some caption) (postTypeOf fileType)]

/-- Continuation after a successful status check in the single-item path
(source lines 354-370).  The inner `publishInstagramMediaContainer(...).then(...)`
promise is not returned from the surrounding arrow, so a publish rejection
escapes the `.catch` on the outer chain: no state write happens in that case.
On success, `saveInstagramId` is issued without awaiting and `posted` is written
immediately, whatever the persist call later does. -/
def igSingleAfterCheck (env : Env) (accountId containerId : String) : List Event :=
  Event.publishContainer accountId containerId ::
  match env.publishMediaContainer accountId containerId with
  | Except.error _ => []
  | Except.ok mediaId =>
      [Event.saveInstagramId mediaId, Event.setIgState accountId ProcessingState.posted]

/-- Continuation after a successful container create in the single-item path
(source lines 349-371): poll the one container, then continue; a poll rejection
is caught by the outer `.catch` and writes `error`. -/
def igSingleAfterCreate (env : Env) (accountId containerId : String) : List Event :=
  Event.checkStatus accountId [containerId] ::
  match env.checkStatus accountId [containerId] with
  | Except.error _ => [Event.setIgState accountId ProcessingState.error]
  | Except.ok _ => igSingleAfterCheck env accountId containerId

/-- Settlement of one account chain of the single-item path (source lines
341-376): the create result selects the continuation; a create rejection is
caught by the `.catch` and writes `error`. -/
def igSingleSettle (env : Env) (accountId filePath : String) : List Event :=
  match env.createContainer accountId filePath with
  | Except.error _ => [Event.setIgState accountId ProcessingState.error]
  | Except.ok containerId => igSingleAfterCreate env accountId containerId

/-- Synchronous part of the per-account body of the carousel fan-out (source
lines 264-278): write `processing`, then start one `createInstagramContainer`
per uploaded item inside `Promise.all`, each with `isCarouselItem: true` and no
caption field. -/
def igCarouselLaunch (accountId : String) (filePaths : List (String × String)) : List Event :=
  Event.setIgState accountId ProcessingState.processing ::
  filePaths.map (fun pt => Event.createContainer accountId pt.1 true none (postTypeOf pt.2))

/-- Gather of the carousel `Promise.all` over the item container creates: the
value list on success, the first rejection otherwise. -/
def collectContainerIds (env : Env) (accountId : String) :
    List (String × String) → Except String (List String)
  | [] => Except.ok []
  | pt :: rest =>
      match env.createContainer accountId pt.1, collectContainerIds env accountId rest with
      | Except.ok cid, Except.ok cids => Except.ok (cid :: cids)
      | Except.error e, _ => Except.error e
      | Except.ok _, Except.error e => Except.error e

/-- Final continuation of the carousel chain (source lines 296-312): publish
the aggregate container.  Here the publish promise is returned, so a rejection
reaches the `.catch` and writes `error`; on success `saveInstagramId` is issued
without awaiting and `posted` is written immediately. -/
def igCarouselAfterAggCheck (env : Env) (accountId aggregateId : String) : List Event :=
  Event.publishContainer accountId aggregateId ::
  match env.publishMediaContainer accountId aggregateId with
  | Except.error _ => [Event.setIgState accountId ProcessingState.error]
  | Except.ok mediaId =>
      [Event.saveInstagramId mediaId, Event.setIgState accountId ProcessingState.posted]

/-- Continuation after creating the aggregate container (source lines 290-296):
poll the aggregate container alone. -/
def igCarouselAfterAggregate (env : Env) (accountId aggregateId : String) : List Event :=
  Event.checkStatus accountId [aggregateId] ::
  match env.checkStatus accountId [aggregateId] with
  | Except.error _ => [Event.setIgState accountId ProcessingState.error]
  | Except.ok _ => igCarouselAfterAggCheck env accountId aggregateId

/-- Continuation after all item containers polled ready (source lines 284-290):
create the aggregate carousel container referencing every item container id and
carrying the caption. -/
def igCarouselAfterCheck (env : Env) (accountId : String) (containerIds : List String)
    (caption : String) : List Event :=
  Event.createCarousel accountId containerIds caption ::
  match env.createCarouselContainer accountId containerIds with
  | Except.error _ => [Event.setIgState accountId ProcessingState.error]
  | Except.ok aggregateId => igCarouselAfterAggregate env accountId aggregateId

/-- Continuation after the item-container `Promise.all` resolves (source lines
279-284): poll all item container ids in one call. -/
def igCarouselAfterCreates (env : Env) (accountId : String) (containerIds : List String)
    (caption : String) : List Event :=
  Event.checkStatus accountId containerIds ::
  match env.checkStatus accountId containerIds with
  | Except.error _ => [Event.setIgState accountId ProcessingState.error]
  | Except.ok _ => igCarouselAfterCheck env accountId containerIds caption

/-- Settlement of one account chain of the carousel path (source lines
268-321): any rejection of the item-create gather is caught by the `.catch`
and writes `error`. -/
def igCarouselSettle (env : Env) (accountId : String) (filePaths : List (String × String))
    (caption : String) : List Event :=
  match collectContainerIds env accountId filePaths with
  | Except.error _ => [Event.setIgState accountId ProcessingState.error]
  | Except.ok containerIds => igCarouselAfterCreates env accountId containerIds caption

/-- One full carousel workflow for one destination: the synchronous launch part
followed by its settlement. -/
def igCarouselWorkflow (env : Env) (accountId : String) (filePaths : List (String × String))
    (caption : String) : List Event :=
  igCarouselLaunch accountId filePaths ++ igCarouselSettle env accountId filePaths caption

/-- Synchronous part of the per-channel body of the YouTube fan-out (source
lines 378-391): write `processing`, build the form data and start the
`fetch("/api/youtube/post")` request. -/
def ytLaunch (channelId : String) : List Event :=
  [Event.setYtState channelId ProcessingState.processing, Event.youtubeCall channelId]

/-- Settlement of one YouTube chain (source lines 391-401): the `.then`
inspects `resp.ok`; no `.catch` is attached to the fetch chain, so a
transport-level rejection performs no state write at all. -/
def ytSettle (env : Env) (channelId : String) : List Event :=
  match env.youtubeFetch channelId with
  | Except.error _ => []
  | Except.ok true => [Event.setYtState channelId ProcessingState.posted]
  | Except.ok false => [Event.setYtState channelId ProcessingState.error]

/-- Gather of the carousel upload `Promise.all` (source lines 251-263): upload
every file at its selection index and pair the returned storage path with the
post type computed from the MIME type; the first rejection aborts the gather. -/
def collectUploadsFrom (env : Env) : List FileEntry → Nat → Except String (List (String × String))
  | [], _ => Except.ok []
  | f :: rest, index =>
      match env.uploadFile index, collectUploadsFrom env rest (index + 1) with
      | Except.ok path, Except.ok rest' => Except.ok ((path, postTypeOf f.fileType) :: rest')
      | Except.error e, _ => Except.error e
      | Except.ok _, Except.error e => Except.error e

/-- `processSingleSocialMediaPost` (source lines 325-403): await the upload of
`files[0]`, then run the Instagram fan-out and the YouTube fan-out.  The two
`forEach` loops run synchronously, so every launch block precedes every
settlement; settlements are listed in fan-out order, one admissible completion
order.  An upload rejection ends the run with nothing further issued. -/
def processSingleSocialMediaPost (env : Env) (files : List FileEntry)
    (accounts channels : List String) (caption : String) : List Event :=
  Event.upload 0 ::
  match env.uploadFile 0 with
  | Except.error _ => []
  | Except.ok filePath =>
      accounts.flatMap
        (fun a => igSingleLaunch a filePath (files.headD ⟨"", ""⟩).fileType caption) ++
      channels.flatMap ytLaunch ++
      accounts.flatMap (fun a => igSingleSettle env a filePath) ++
      channels.flatMap (fun c => ytSettle env c)

/-- `processCarouselSocialMediaPost` (source lines 246-323): await all uploads
via `Promise.all`, then run the Instagram fan-out.  The carousel path contains
no YouTube fan-out in the source.  An upload rejection ends the run with
nothing further issued. -/
def processCarouselSocialMediaPost (env : Env) (files : List FileEntry)
    (accounts : List String) (caption : String) : List Event :=
  (List.range files.length).map Event.upload ++
  match collectUploadsFrom env files 0 with
  | Except.error _ => []
  | Except.ok filePaths =>
      accounts.flatMap (fun a => igCarouselLaunch a filePaths) ++
      accounts.flatMap (fun a => igCarouselSettle env a filePaths caption)

/-- `processSocialMediaPost` (source lines 171-179): create the parent post
record, then pick the single or carousel path purely from `files.length`; with
zero files neither branch runs. -/
def processSocialMediaPost (env : Env) (files : List FileEntry)
    (accounts channels : List String) (caption : String) : List Event :=
  Event.createPost ::
  match env.createSocialMediaPost with
  | Except.error _ => []
  | Except.ok _ =>
      if files.length = 1 then
        processSingleSocialMediaPost env files accounts channels caption
      else if 1 < files.length then
        processCarouselSocialMediaPost env files accounts caption
      else
        []

/-- Effect of one event on the Instagram state mapping. -/
def igStep (m : StateMap) : Event → StateMap
  | Event.setIgState key value => setStateMap m key value
  | _ => m

/-- Effect of one event on the YouTube state mapping. -/
def ytStep (m : StateMap) : Event → StateMap
  | Event.setYtState key value => setStateMap m key value
  | _ => m

/-- Replay the Instagram state writes of a trace over a starting mapping. -/
def igMapFold (m : StateMap) (trace : List Event) : StateMap :=
  trace.foldl igStep m

/-- Instagram state mapping after a run that started from the empty mapping. -/
def igMapAfter (trace : List Event) : StateMap :=
  igMapFold [] trace

/-- Replay the YouTube state writes of a trace over a starting mapping. -/
def ytMapFold (m : StateMap) (trace : List Event) : StateMap :=
  trace.foldl ytStep m

/-- YouTube state mapping after a run that started from the empty mapping. -/
def ytMapAfter (trace : List Event) : StateMap :=
  ytMapFold [] trace

/-- All intermediate values of the Instagram state mapping along a trace:
position `k` holds the mapping after the first `k` events. -/
def igMapHistory : StateMap → List Event → List StateMap
  | m, [] => [m]
  | m, e :: rest => m :: igMapHistory (igStep m e) rest

/-- Whether an event is a storage upload. -/
def isUploadEvent : Event → Bool
  | Event.upload _ => true
  | _ => false

/-- Whether an event belongs to some destination workflow (anything past the
parent-post create and the uploads). -/
def isWorkflowEvent : Event → Bool
  | Event.createPost => false
  | Event.upload _ => false
  | _ => true

/-- The submit button disabled predicate, source lines 618-634.  JavaScript
truthiness of `entry.errorMessage` is non-emptiness of the string. -/
def buttonDisabled (selectedInstagramAccounts : List InstagramAccount)
    (selectedYoutubeChannels : List String) (files : List FileEntry)
    (youtubeTitle : String) (igMap ytMap : StateMap) : Bool :=
  (selectedInstagramAccounts.length == 0 && selectedYoutubeChannels.length == 0) ||
  files.length == 0 ||
  files.any (fun entry => entry.errorMessage != "") ||
  (decide (0 < selectedYoutubeChannels.length) && youtubeTitle.length == 0) ||
  (decide (0 < selectedYoutubeChannels.length) && decide (100 < youtubeTitle.length)) ||
  (igMap.map Prod.snd).any (fun st => st == ProcessingState.processing) ||
  (ytMap.map Prod.snd).any (fun st => st == ProcessingState.processing)

/-- Oracle under which every remote call succeeds, with deterministic ids. -/
def allOkEnv : Env where
  createSocialMediaPost := Except.ok "post1"
  uploadFile := fun i => Except.ok ("path" ++ toString i)
  createContainer := fun _ p => Except.ok ("c-" ++ p)
  checkStatus := fun _ _ => Except.ok ()
  createCarouselContainer := fun _ _ => Except.ok "agg"
  publishMediaContainer := fun _ c => Except.ok ("m-" ++ c)
  saveInstagramId := fun _ => Except.ok ()
  youtubeFetch := fun _ => Except.ok true

/-- Oracle where only the persist of the external media id fails. -/
def saveFailEnv : Env :=
  { allOkEnv with saveInstagramId := fun _ => Except.error "db" }

/-- Oracle where only the publish call fails. -/
def publishFailEnv : Env :=
  { allOkEnv with publishMediaContainer := fun _ _ => Except.error "publish down" }

/-- Oracle where the YouTube fetch rejects at the transport level. -/
def transportFailEnv : Env :=
  { allOkEnv with youtubeFetch := fun _ => Except.error "network down" }

/-- Oracle where the YouTube fetch resolves with a non-ok response. -/
def respFailEnv : Env :=
  { allOkEnv with youtubeFetch := fun _ => Except.ok false }

/-- Oracle where every storage upload fails. -/
def uploadFailEnv : Env :=
  { allOkEnv with uploadFile := fun _ => Except.error "storage down" }

/-- A single valid video file entry. -/
def videoFile : FileEntry := ⟨"video/mp4", ""⟩

/-- Full run used by several exhibits: one file, two selected Instagram
accounts, every remote call succeeding. -/
def twoAccountRun : List Event :=
  processSocialMediaPost allOkEnv [videoFile] ["a1", "a2"] [] "cap"

/-- An account whose row id differs from its Instagram business account id, as
the two columns do in the `instagram-accounts` table. -/
def sampleAccount : InstagramAccount := ⟨"row1", "biz1"⟩

/-- Events an Instagram settlement chain can emit for its own account:
state writes, status polls, publish calls and the persist call. -/
def IgTailEvent (accountId : String) (e : Event) : Prop :=
  (∃ st, e = Event.setIgState accountId st) ∨
  (∃ ids, e = Event.checkStatus accountId ids) ∨
  (∃ cid, e = Event.publishContainer accountId cid) ∨
  (∃ m, e = Event.saveInstagramId m)

/-- Events a carousel settlement chain can emit: the tail alphabet plus the
aggregate container create. -/
def IgCarouselTailEvent (accountId : String) (e : Event) : Prop :=
  IgTailEvent accountId e ∨ ∃ ids cap, e = Event.createCarousel accountId ids cap

/-- Any event of a single-item launch block is the processing write or the
non-carousel container create carrying the caption. -/
theorem mem_igSingleLaunch (accountId filePath fileType caption : String) (e : Event)
    (hmem : e ∈ igSingleLaunch accountId filePath fileType caption) :
    e = Event.setIgState accountId ProcessingState.processing ∨
    e = Event.createContainer accountId filePath false (some caption) (postTypeOf fileType) := by
  simp [igSingleLaunch] at hmem
  exact hmem

/-- Any event of the single-item publish continuation is in the Instagram tail
alphabet of its own account. -/
theorem mem_igSingleAfterCheck (env : Env) (accountId containerId : String) (e : Event)
    (hmem : e ∈ igSingleAfterCheck env accountId containerId) :
    IgTailEvent accountId e := by
  unfold igSingleAfterCheck at hmem
  rcases List.mem_cons.mp hmem with rfl | hmem
  · exact Or.inr (Or.inr (Or.inl ⟨containerId, rfl⟩))
  · split at hmem
    · simp at hmem
    · simp [List.mem_cons] at hmem
      rcases hmem with rfl | rfl
      · exact Or.inr (Or.inr (Or.inr ⟨_, rfl⟩))
      · exact Or.inl ⟨_, rfl⟩

/-- Any event of the single-item poll continuation is in the Instagram tail
alphabet of its own account. -/
theorem mem_igSingleAfterCreate (env : Env) (accountId containerId : String) (e : Event)
    (hmem : e ∈ igSingleAfterCreate env accountId containerId) :
    IgTailEvent accountId e := by
  unfold igSingleAfterCreate at hmem
  rcases List.mem_cons.mp hmem with rfl | hmem
  · exact Or.inr (Or.inl ⟨_, rfl⟩)
  · split at hmem
    · simp at hmem
      subst hmem
      exact Or.inl ⟨_, rfl⟩
    · exact mem_igSingleAfterCheck env accountId containerId e hmem

/-- Any event of a single-item settlement chain is in the Instagram tail
alphabet of its own account. -/
theorem mem_igSingleSettle (env : Env) (accountId filePath : String) (e : Event)
    (hmem : e ∈ igSingleSettle env accountId filePath) :
    IgTailEvent accountId e := by
  unfold igSingleSettle at hmem
  split at hmem
  · simp at hmem
    subst hmem
    exact Or.inl ⟨_, rfl⟩
  · exact mem_igSingleAfterCreate env accountId _ e hmem

/-- Any event of a YouTube launch block is the processing write or the fetch
start. -/
theorem mem_ytLaunch (channelId : String) (e : Event) (hmem : e ∈ ytLaunch channelId) :
    e = Event.setYtState channelId ProcessingState.processing ∨
    e = Event.youtubeCall channelId := by
  simp [ytLaunch] at hmem
  exact hmem

/-- Any event of a YouTube settlement chain is a state write for its own
channel. -/
theorem mem_ytSettle (env : Env) (channelId : String) (e : Event)
    (hmem : e ∈ ytSettle env channelId) :
    ∃ st, e = Event.setYtState channelId st := by
  unfold ytSettle at hmem
  split at hmem
  · simp at hmem
  · simp at hmem
    subst hmem
    exact ⟨_, rfl⟩
  · simp at hmem
    subst hmem
    exact ⟨_, rfl⟩

/-- Any event of a carousel launch block is the processing write or an item
container create flagged as carousel item without caption. -/
theorem mem_igCarouselLaunch (accountId : String) (filePaths : List (String × String))
    (e : Event) (hmem : e ∈ igCarouselLaunch accountId filePaths) :
    e = Event.setIgState accountId ProcessingState.processing ∨
    ∃ pt ∈ filePaths, e = Event.createContainer accountId pt.1 true none (postTypeOf pt.2) := by
  unfold igCarouselLaunch at hmem
  rcases List.mem_cons.mp hmem with rfl | hmem
  · exact Or.inl rfl
  · rcases List.mem_map.mp hmem with ⟨pt, hpt, rfl⟩
    exact Or.inr ⟨pt, hpt, rfl⟩

/-- Any event of the aggregate publish continuation is in the carousel tail
alphabet of its own account. -/
theorem mem_igCarouselAfterAggCheck (env : Env) (accountId aggregateId : String) (e : Event)
    (hmem : e ∈ igCarouselAfterAggCheck env accountId aggregateId) :
    IgCarouselTailEvent accountId e := by
  unfold igCarouselAfterAggCheck at hmem
  rcases List.mem_cons.mp hmem with rfl | hmem
  · exact Or.inl (Or.inr (Or.inr (Or.inl ⟨_, rfl⟩)))
  · split at hmem
    · simp at hmem
      subst hmem
      exact Or.inl (Or.inl ⟨_, rfl⟩)
    · simp [List.mem_cons] at hmem
      rcases hmem with rfl | rfl
      · exact Or.inl (Or.inr (Or.inr (Or.inr ⟨_, rfl⟩)))
      · exact Or.inl (Or.inl ⟨_, rfl⟩)

/-- Any event of the aggregate poll continuation is in the carousel tail
alphabet of its own account. -/
theorem mem_igCarouselAfterAggregate (env : Env) (accountId aggregateId : String) (e : Event)
    (hmem : e ∈ igCarouselAfterAggregate env accountId aggregateId) :
    IgCarouselTailEvent accountId e := by
  unfold igCarouselAfterAggregate at hmem
  rcases List.mem_cons.mp hmem with rfl | hmem
  · exact Or.inl (Or.inr (Or.inl ⟨_, rfl⟩))
  · split at hmem
    · simp at hmem
      subst hmem
      exact Or.inl (Or.inl ⟨_, rfl⟩)
    · exact mem_igCarouselAfterAggCheck env accountId _ e hmem

/-- Any event of the aggregate create continuation is in the carousel tail
alphabet of its own account. -/
theorem mem_igCarouselAfterCheck (env : Env) (accountId : String)
    (containerIds : List String) (caption : String) (e : Event)
    (hmem : e ∈ igCarouselAfterCheck env accountId containerIds caption) :
    IgCarouselTailEvent accountId e := by
  unfold igCarouselAfterCheck at hmem
  rcases List.mem_cons.mp hmem with rfl | hmem
  · exact Or.inr ⟨_, _, rfl⟩
  · split at hmem
    · simp at hmem
      subst hmem
      exact Or.inl (Or.inl ⟨_, rfl⟩)
    · exact mem_igCarouselAfterAggregate env accountId _ e hmem

/-- Any event of the item poll continuation is in the carousel tail alphabet
of its own account. -/
theorem mem_igCarouselAfterCreates (env : Env) (accountId : String)
    (containerIds : List String) (caption : String) (e : Event)
    (hmem : e ∈ igCarouselAfterCreates env accountId containerIds caption) :
    IgCarouselTailEvent accountId e := by
  unfold igCarouselAfterCreates at hmem
  rcases List.mem_cons.mp hmem with rfl | hmem
  · exact Or.inl (Or.inr (Or.inl ⟨_, rfl⟩))
  · split at hmem
    · simp at hmem
      subst hmem
      exact Or.inl (Or.inl ⟨_, rfl⟩)
    · exact mem_igCarouselAfterCheck env accountId containerIds caption e hmem

/-- Any event of a carousel settlement chain is in the carousel tail alphabet
of its own account. -/
theorem mem_igCarouselSettle (env : Env) (accountId : String)
    (filePaths : List (String × String)) (caption : String) (e : Event)
    (hmem : e ∈ igCarouselSettle env accountId filePaths caption) :
    IgCarouselTailEvent accountId e := by
  unfold igCarouselSettle at hmem
  split at hmem
  · simp at hmem
    subst hmem
    exact Or.inl (Or.inl ⟨_, rfl⟩)
  · exact mem_igCarouselAfterCreates env accountId _ caption e hmem

/-- Any event of the single-item fan-out blocks belongs to one selected
account with the single-item container shape, or to one selected channel. -/
theorem mem_singleBlocks (env : Env) (filePath fileType caption : String)
    (accounts channels : List String) (e : Event)
    (hmem : e ∈ accounts.flatMap (fun a => igSingleLaunch a filePath fileType caption) ++
        channels.flatMap ytLaunch ++
        accounts.flatMap (fun a => igSingleSettle env a filePath) ++
        channels.flatMap (fun c => ytSettle env c)) :
    (∃ a ∈ accounts,
        (∃ fp ty, e = Event.createContainer a fp false (some caption) ty) ∨
        IgTailEvent a e) ∨
    (∃ c ∈ channels, e = Event.youtubeCall c ∨ ∃ st, e = Event.setYtState c st) := by
  rcases List.mem_append.mp hmem with hmem | hmem
  · rcases List.mem_append.mp hmem with hmem | hmem
    · rcases List.mem_append.mp hmem with hmem | hmem
      · rcases List.mem_flatMap.mp hmem with ⟨a, ha, hmem⟩
        rcases mem_igSingleLaunch a filePath fileType caption e hmem with rfl | rfl
        · exact Or.inl ⟨a, ha, Or.inr (Or.inl ⟨_, rfl⟩)⟩
        · exact Or.inl ⟨a, ha, Or.inl ⟨filePath, postTypeOf fileType, rfl⟩⟩
      · rcases List.mem_flatMap.mp hmem with ⟨c, hc, hmem⟩
        rcases mem_ytLaunch c e hmem with rfl | rfl
        · exact Or.inr ⟨c, hc, Or.inr ⟨_, rfl⟩⟩
        · exact Or.inr ⟨c, hc, Or.inl rfl⟩
    · rcases List.mem_flatMap.mp hmem with ⟨a, ha, hmem⟩
      exact Or.inl ⟨a, ha, Or.inr (mem_igSingleSettle env a filePath e hmem)⟩
  · rcases List.mem_flatMap.mp hmem with ⟨c, hc, hmem⟩
    rcases mem_ytSettle env c e hmem with ⟨st, rfl⟩
    exact Or.inr ⟨c, hc, Or.inr ⟨st, rfl⟩⟩

/-- Any event of the single-item run is the first upload or belongs to one
selected destination with the single-item shape. -/
theorem mem_processSingle (env : Env) (files : List FileEntry)
    (accounts channels : List String) (caption : String) (e : Event)
    (hmem : e ∈ processSingleSocialMediaPost env files accounts channels caption) :
    e = Event.upload 0 ∨
    (∃ a ∈ accounts,
        (∃ fp ty, e = Event.createContainer a fp false (some caption) ty) ∨
        IgTailEvent a e) ∨
    (∃ c ∈ channels, e = Event.youtubeCall c ∨ ∃ st, e = Event.setYtState c st) := by
  unfold processSingleSocialMediaPost at hmem
  rcases List.mem_cons.mp hmem with rfl | hmem
  · exact Or.inl rfl
  · split at hmem
    · simp at hmem
    · exact Or.inr (mem_singleBlocks env _ _ caption accounts channels e hmem)

/-- Any event of the carousel fan-out blocks belongs to one selected account
with the carousel container shape. -/
theorem mem_carouselBlocks (env : Env) (filePaths : List (String × String))
    (caption : String) (accounts : List String) (e : Event)
    (hmem : e ∈ accounts.flatMap (fun a => igCarouselLaunch a filePaths) ++
        accounts.flatMap (fun a => igCarouselSettle env a filePaths caption)) :
    ∃ a ∈ accounts,
      (∃ fp ty, e = Event.createContainer a fp true none ty) ∨
      IgCarouselTailEvent a e := by
  rcases List.mem_append.mp hmem with hmem | hmem
  · rcases List.mem_flatMap.mp hmem with ⟨a, ha, hmem⟩
    rcases mem_igCarouselLaunch a filePaths e hmem with rfl | ⟨pt, _, rfl⟩
    · exact ⟨a, ha, Or.inr (Or.inl (Or.inl ⟨_, rfl⟩))⟩
    · exact ⟨a, ha, Or.inl ⟨pt.1, postTypeOf pt.2, rfl⟩⟩
  · rcases List.mem_flatMap.mp hmem with ⟨a, ha, hmem⟩
    exact ⟨a, ha, Or.inr (mem_igCarouselSettle env a filePaths caption e hmem)⟩

/-- Events of the Instagram tail alphabet are never uploads. -/
theorem IgTailEvent_not_upload (accountId : String) (e : Event)
    (h : IgTailEvent accountId e) : isUploadEvent e = false := by
  unfold IgTailEvent at h
  rcases h with ⟨st, rfl⟩ | ⟨ids, rfl⟩ | ⟨cid, rfl⟩ | ⟨m, rfl⟩ <;> rfl

/-- Events of the carousel tail alphabet are never uploads. -/
theorem IgCarouselTailEvent_not_upload (accountId : String) (e : Event)
    (h : IgCarouselTailEvent accountId e) : isUploadEvent e = false := by
  unfold IgCarouselTailEvent at h
  rcases h with h | ⟨ids, cap, rfl⟩
  · exact IgTailEvent_not_upload accountId e h
  · rfl

/-- Replaying a pure-upload trace leaves the Instagram mapping unchanged. -/
theorem igMapFold_map_upload (indices : List Nat) (m : StateMap) :
    igMapFold m (indices.map Event.upload) = m := by
  induction indices generalizing m with
  | nil => rfl
  | cons i is ih => exact ih m

/-- Replaying a pure-upload trace leaves the YouTube mapping unchanged. -/
theorem ytMapFold_map_upload (indices : List Nat) (m : StateMap) :
    ytMapFold m (indices.map Event.upload) = m := by
  induction indices generalizing m with
  | nil => rfl
  | cons i is ih => exact ih m

/-- The item-container gather yields one container id per uploaded item. -/
theorem collectContainerIds_length (env : Env) (accountId : String) :
    ∀ (filePaths : List (String × String)) (ids : List String),
      collectContainerIds env accountId filePaths = Except.ok ids →
      ids.length = filePaths.length := by
  intro filePaths
  induction filePaths with
  | nil =>
      intro ids h
      simp [collectContainerIds] at h
      simp [← h]
  | cons pt rest ih =>
      intro ids h
      unfold collectContainerIds at h
      cases hc : env.createContainer accountId pt.1 with
      | error e => rw [hc] at h; simp at h
      | ok cid =>
          cases hr : collectContainerIds env accountId rest with
          | error e => rw [hc, hr] at h; simp at h
          | ok cids =>
              rw [hc, hr] at h
              simp at h
              subst h
              simp [ih cids hr]

/-- C4: for a selection of more than one item, the per-destination Instagram
workflow writes `processing`, creates one item container per item, each with
`isCarouselItem` true and no caption field, then polls all item container ids
in one call, then creates exactly one aggregate container referencing every
item container id and carrying the caption, then polls the aggregate, then
publishes the aggregate, in exactly that order. -/
theorem c4_carousel_container_protocol (env : Env)
    (accountId caption aggregateId mediaId : String)
    (filePaths : List (String × String)) (containerIds : List String)
    (_hN : 1 < filePaths.length)
    (h1 : collectContainerIds env accountId filePaths = Except.ok containerIds)
    (h2 : env.checkStatus accountId containerIds = Except.ok ())
    (h3 : env.createCarouselContainer accountId containerIds = Except.ok aggregateId)
    (h4 : env.checkStatus accountId [aggregateId] = Except.ok ())
    (h5 : env.publishMediaContainer accountId aggregateId = Except.ok mediaId) :
    igCarouselWorkflow env accountId filePaths caption =
      Event.setIgState accountId ProcessingState.processing ::
      filePaths.map (fun pt => Event.createContainer accountId pt.1 true none (postTypeOf pt.2)) ++
      [Event.checkStatus accountId containerIds,
       Event.createCarousel accountId containerIds caption,
       Event.checkStatus accountId [aggregateId],
       Event.publishContainer accountId aggregateId,
       Event.saveInstagramId mediaId,
       Event.setIgState accountId ProcessingState.posted] ∧
    containerIds.length = filePaths.length := by
  have e1 : igCarouselSettle env accountId filePaths caption =
      igCarouselAfterCreates env accountId containerIds caption := by
    unfold igCarouselSettle; rw [h1]
  have e2 : igCarouselAfterCreates env accountId containerIds caption =
      Event.checkStatus accountId containerIds ::
        igCarouselAfterCheck env accountId containerIds caption := by
    unfold igCarouselAfterCreates; rw [h2]
  have e3 : igCarouselAfterCheck env accountId containerIds caption =
      Event.createCarousel accountId containerIds caption ::
        igCarouselAfterAggregate env accountId aggregateId := by
    unfold igCarouselAfterCheck; rw [h3]
  have e4 : igCarouselAfterAggregate env accountId aggregateId =
      Event.checkStatus accountId [aggregateId] ::
        igCarouselAfterAggCheck env accountId aggregateId := by
    unfold igCarouselAfterAggregate; rw [h4]
  have e5 : igCarouselAfterAggCheck env accountId aggregateId =
      [Event.publishContainer accountId aggregateId,
       Event.saveInstagramId mediaId,
       Event.setIgState accountId ProcessingState.posted] := by
    unfold igCarouselAfterAggCheck; rw [h5]
  constructor
  · unfold igCarouselWorkflow igCarouselLaunch
    rw [e1, e2, e3, e4, e5]
  · exact collectContainerIds_length env accountId filePaths containerIds h1

/-- Witness for C4 at a concrete two-item selection under the all-success
oracle. -/
theorem c4_carousel_container_protocol_witness :
    igCarouselWorkflow allOkEnv "a1" [("p0", "video"), ("p1", "image")] "cap" =
      Event.setIgState "a1" ProcessingState.processing ::
      [("p0", "video"), ("p1", "image")].map
        (fun pt => Event.createContainer "a1" pt.1 true none (postTypeOf pt.2)) ++
      [Event.checkStatus "a1" ["c-p0", "c-p1"],
       Event.createCarousel "a1" ["c-p0", "c-p1"] "cap",
       Event.checkStatus "a1" ["agg"],
       Event.publishContainer "a1" "agg",
       Event.saveInstagramId "m-agg",
       Event.setIgState "a1" ProcessingState.posted] ∧
    (["c-p0", "c-p1"] : List String).length
      = ([("p0", "video"), ("p1", "image")] : List (String × String)).length :=
  c4_carousel_container_protocol allOkEnv "a1" "cap" "agg" "m-agg"
    [("p0", "video"), ("p1", "image")] ["c-p0", "c-p1"] (by decide) rfl rfl rfl rfl rfl

/-- C5: with exactly one media item the entry point takes the single-item
Instagram path, whatever the accounts, channels, caption or remote outcomes
are: the run never creates an aggregate carousel container, and every
container it creates has `isCarouselItem` false and carries the caption.  The
branch condition reads nothing but the item count. -/
theorem c5_single_item_path (env : Env) (files : List FileEntry)
    (accounts channels : List String) (caption postId : String)
    (hlen : files.length = 1)
    (hpost : env.createSocialMediaPost = Except.ok postId) :
    processSocialMediaPost env files accounts channels caption =
      Event.createPost :: processSingleSocialMediaPost env files accounts channels caption ∧
    (∀ a ids cap,
        Event.createCarousel a ids cap ∉
          processSocialMediaPost env files accounts channels caption) ∧
    (∀ a fp flag cap ty,
        Event.createContainer a fp flag cap ty ∈
            processSocialMediaPost env files accounts channels caption →
        flag = false ∧ cap = some caption) := by
  have htr : processSocialMediaPost env files accounts channels caption =
      Event.createPost :: processSingleSocialMediaPost env files accounts channels caption := by
    unfold processSocialMediaPost
    rw [hpost, hlen]
    simp
  refine ⟨htr, ?_, ?_⟩
  · intro a ids cap hmem
    rw [htr] at hmem
    rcases List.mem_cons.mp hmem with heq | hmem
    · simp at heq
    · rcases mem_processSingle env files accounts channels caption _ hmem with
        heq | ⟨a2, _, h⟩ | ⟨c2, _, h⟩
      · simp at heq
      · rcases h with ⟨fp, ty, heq⟩ | h
        · simp at heq
        · unfold IgTailEvent at h
          rcases h with ⟨st, heq⟩ | ⟨ids2, heq⟩ | ⟨cid, heq⟩ | ⟨m, heq⟩ <;> simp at heq
      · rcases h with heq | ⟨st, heq⟩ <;> simp at heq
  · intro a fp flag cap ty hmem
    rw [htr] at hmem
    rcases List.mem_cons.mp hmem with heq | hmem
    · simp at heq
    · rcases mem_processSingle env files accounts channels caption _ hmem with
        heq | ⟨a2, _, h⟩ | ⟨c2, _, h⟩
      · simp at heq
      · rcases h with ⟨fp2, ty2, heq⟩ | h
        · injection heq with e1 e2 e3 e4 e5
          exact ⟨e3, e4⟩
        · unfold IgTailEvent at h
          rcases h with ⟨st, heq⟩ | ⟨ids2, heq⟩ | ⟨cid, heq⟩ | ⟨m, heq⟩ <;> simp at heq
      · rcases h with heq | ⟨st, heq⟩ <;> simp at heq

/-- Witness for C5 at a concrete one-item selection with one account and one
channel under the all-success oracle. -/
theorem c5_single_item_path_witness :
    processSocialMediaPost allOkEnv [videoFile] ["a1"] ["y1"] "cap" =
      Event.createPost :: processSingleSocialMediaPost allOkEnv [videoFile] ["a1"] ["y1"] "cap" ∧
    (∀ a ids cap,
        Event.createCarousel a ids cap ∉
          processSocialMediaPost allOkEnv [videoFile] ["a1"] ["y1"] "cap") ∧
    (∀ a fp flag cap ty,
        Event.createContainer a fp flag cap ty ∈
            processSocialMediaPost allOkEnv [videoFile] ["a1"] ["y1"] "cap" →
        flag = false ∧ cap = some "cap") :=
  c5_single_item_path allOkEnv [videoFile] ["a1"] ["y1"] "cap" "post1" rfl rfl

/-- When any upload rejects, a run is the parent-post create alone (if the
post create itself rejected) or the parent-post create followed only by upload
events. -/
theorem trace_of_upload_failure (env : Env) (files : List FileEntry)
    (accounts channels : List String) (caption err : String)
    (hup : collectUploadsFrom env files 0 = Except.error err) :
    processSocialMediaPost env files accounts channels caption = [Event.createPost] ∨
    processSocialMediaPost env files accounts channels caption =
      Event.createPost :: (List.range files.length).map Event.upload := by
  unfold processSocialMediaPost
  cases hcp : env.createSocialMediaPost with
  | error e => exact Or.inl rfl
  | ok pid =>
      right
      rcases files with _ | ⟨f, rest⟩
      · exact absurd hup (by simp [collectUploadsFrom])
      rcases rest with _ | ⟨g, rest2⟩
      · have hu : env.uploadFile 0 = Except.error err := by
          unfold collectUploadsFrom at hup
          cases hu0 : env.uploadFile 0 with
          | error e2 =>
              rw [hu0] at hup
              simp [collectUploadsFrom] at hup
              rw [hup]
          | ok p =>
              rw [hu0] at hup
              simp [collectUploadsFrom] at hup
        simp [processSingleSocialMediaPost, hu, List.range_succ]
      · simp only [List.length_cons]
        rw [if_neg (by omega), if_pos (by omega)]
        unfold processCarouselSocialMediaPost
        rw [hup]
        simp

/-- C7: if the storage upload or metadata insert rejects for any item, the run
performs no destination workflow step at all and writes no state entry for any
destination; and in every run whatsoever all upload events precede every other
event after the parent-post create, so no destination workflow starts before
the uploads have completed. -/
theorem c7_upload_failure_aborts (env : Env) (files : List FileEntry)
    (accounts channels : List String) (caption err : String)
    (hup : collectUploadsFrom env files 0 = Except.error err) :
    (igMapAfter (processSocialMediaPost env files accounts channels caption) = [] ∧
     ytMapAfter (processSocialMediaPost env files accounts channels caption) = [] ∧
     ∀ ev ∈ processSocialMediaPost env files accounts channels caption,
       isWorkflowEvent ev = false) ∧
    (∀ (env2 : Env) (files2 : List FileEntry) (accounts2 channels2 : List String)
        (caption2 : String),
      ∃ pre post,
        processSocialMediaPost env2 files2 accounts2 channels2 caption2 =
          Event.createPost :: (pre ++ post) ∧
        (∀ ev ∈ pre, isUploadEvent ev = true) ∧
        (∀ ev ∈ post, isUploadEvent ev = false)) := by
  constructor
  · rcases trace_of_upload_failure env files accounts channels caption err hup with htr | htr
    · refine ⟨by rw [htr]; rfl, by rw [htr]; rfl, ?_⟩
      intro ev h
      rw [htr] at h
      simp at h
      subst h
      rfl
    · refine ⟨?_, ?_, ?_⟩
      · rw [htr]
        exact igMapFold_map_upload (List.range files.length) []
      · rw [htr]
        exact ytMapFold_map_upload (List.range files.length) []
      · intro ev h
        rw [htr] at h
        rcases List.mem_cons.mp h with rfl | h
        · rfl
        · rcases List.mem_map.mp h with ⟨i, _, rfl⟩
          rfl
  · intro env2 files2 accounts2 channels2 caption2
    unfold processSocialMediaPost
    cases hcp : env2.createSocialMediaPost with
    | error e => exact ⟨[], [], rfl, by simp, by simp⟩
    | ok pid =>
        rcases files2 with _ | ⟨f, rest⟩
        · exact ⟨[], [], by simp, by simp, by simp⟩
        rcases rest with _ | ⟨g, rest2⟩
        · cases hu : env2.uploadFile 0 with
          | error e =>
              refine ⟨[Event.upload 0], [], ?_, ?_, by simp⟩
              · simp [processSingleSocialMediaPost, hu]
              · intro ev h
                simp at h
                subst h
                rfl
          | ok filePath =>
              refine ⟨[Event.upload 0],
                accounts2.flatMap (fun a => igSingleLaunch a filePath f.fileType caption2) ++
                channels2.flatMap ytLaunch ++
                accounts2.flatMap (fun a => igSingleSettle env2 a filePath) ++
                channels2.flatMap (fun c => ytSettle env2 c), ?_, ?_, ?_⟩
              · simp [processSingleSocialMediaPost, hu]
              · intro ev h
                simp at h
                subst h
                rfl
              · intro ev h
                rcases mem_singleBlocks env2 filePath f.fileType caption2 accounts2
                    channels2 ev h with ⟨a, _, hsh⟩ | ⟨c, _, hsh⟩
                · rcases hsh with ⟨fp, ty, rfl⟩ | hsh
                  · rfl
                  · exact IgTailEvent_not_upload a ev hsh
                · rcases hsh with rfl | ⟨st, rfl⟩ <;> rfl
        · simp only [List.length_cons]
          rw [if_neg (by omega), if_pos (by omega)]
          cases hcu : collectUploadsFrom env2 (f :: g :: rest2) 0 with
          | error e =>
              refine ⟨(List.range (f :: g :: rest2).length).map Event.upload, [], ?_, ?_,
                by simp⟩
              · unfold processCarouselSocialMediaPost
                rw [hcu]
              · intro ev h
                rcases List.mem_map.mp h with ⟨i, _, rfl⟩
                rfl
          | ok filePaths =>
              refine ⟨(List.range (f :: g :: rest2).length).map Event.upload,
                accounts2.flatMap (fun a => igCarouselLaunch a filePaths) ++
                accounts2.flatMap (fun a => igCarouselSettle env2 a filePaths caption2),
                ?_, ?_, ?_⟩
              · unfold processCarouselSocialMediaPost
                rw [hcu]
              · intro ev h
                rcases List.mem_map.mp h with ⟨i, _, rfl⟩
                rfl
              · intro ev h
                rcases mem_carouselBlocks env2 filePaths caption2 accounts2 ev h with
                  ⟨a, _, hsh⟩
                rcases hsh with ⟨fp, ty, rfl⟩ | hsh
                · rfl
                · exact IgCarouselTailEvent_not_upload a ev hsh

/-- Witness for C7 at a concrete two-item selection whose first upload rejects
under the failing-storage oracle. -/
theorem c7_upload_failure_aborts_witness :
    (igMapAfter (processSocialMediaPost uploadFailEnv [videoFile, videoFile]
        ["a1"] ["y1"] "cap") = [] ∧
     ytMapAfter (processSocialMediaPost uploadFailEnv [videoFile, videoFile]
        ["a1"] ["y1"] "cap") = [] ∧
     ∀ ev ∈ processSocialMediaPost uploadFailEnv [videoFile, videoFile] ["a1"] ["y1"] "cap",
       isWorkflowEvent ev = false) ∧
    (∀ (env2 : Env) (files2 : List FileEntry) (accounts2 channels2 : List String)
        (caption2 : String),
      ∃ pre post,
        processSocialMediaPost env2 files2 accounts2 channels2 caption2 =
          Event.createPost :: (pre ++ post) ∧
        (∀ ev ∈ pre, isUploadEvent ev = true) ∧
        (∀ ev ∈ post, isUploadEvent ev = false)) :=
  c7_upload_failure_aborts uploadFailEnv [videoFile, videoFile] ["a1"] ["y1"] "cap"
    "storage down" rfl

/-- C1: the spec requires a state transition write to set exactly one key and
leave every other destination entry untouched.  The source instead hands the
React setter a fresh single-key object, which replaces the whole mapping, so
writing destination A removes destination B entirely. -/
theorem c1_state_write_clobbers_sibling :
    List.lookup "B"
        (setStateMap [("B", ProcessingState.posted)] "A" ProcessingState.processing) = none ∧
    setStateMap [("B", ProcessingState.posted)] "A" ProcessingState.processing =
      [("A", ProcessingState.processing)] := by
  decide

/-- C2: the spec claims the settled mapping holds exactly one entry per
selected destination.  With one file, accounts a1 and a2 and every remote call
succeeding, both destinations post successfully yet the settled Instagram
mapping holds only the last writer, and a1 has no entry at all.  Moreover with
two files and a selected YouTube channel the carousel path never launches the
YouTube workflow, so y1 never receives any entry. -/
theorem c2_settled_map_misses_destinations :
    igMapAfter twoAccountRun = [("a2", ProcessingState.posted)] ∧
    List.lookup "a1" (igMapAfter twoAccountRun) = none ∧
    ytMapAfter (processSocialMediaPost allOkEnv [videoFile, videoFile] ["a1"] ["y1"] "cap")
      = [] := by
  decide

/-- C3: the spec claims a destination entry that reached a terminal state is
never removed.  In the two-account run, after the first ten events the a1
entry holds `posted`; after the full run the a1 entry is gone, removed by the
sibling replace-write of a2. -/
theorem c3_terminal_entry_removed :
    List.lookup "a1" ((igMapHistory [] twoAccountRun).getD 10 [])
      = some ProcessingState.posted ∧
    List.lookup "a1" ((igMapHistory [] twoAccountRun).getD 14 []) = none := by
  decide

/-- C6: the spec claims any step failure moves the destination to `error`, and
a destination whose persist fails is never marked `posted`.  In the source the
persist call is issued without awaiting and `posted` is written regardless, so
a failing `saveInstagramId` still yields `posted`; and in the single-item path
the inner publish promise is not returned, so a publish failure escapes the
catch handler and the destination stays at `processing` instead of `error`. -/
theorem c6_failure_handling_diverges :
    List.lookup "a1"
        (igMapAfter (processSocialMediaPost saveFailEnv [videoFile] ["a1"] [] "cap"))
      = some ProcessingState.posted ∧
    List.lookup "a1"
        (igMapAfter (processSocialMediaPost publishFailEnv [videoFile] ["a1"] [] "cap"))
      = some ProcessingState.processing := by
  decide

/-- C8: the spec claims a YouTube destination ends at `posted` on success and
at `error` on any failure including a transport-level rejection.  The fetch
chain carries no catch handler, so when the request itself rejects the channel
stays at `processing` forever; only the resolved non-ok response yields
`error`. -/
theorem c8_transport_failure_leaves_processing :
    List.lookup "y1"
        (ytMapAfter (processSocialMediaPost transportFailEnv [videoFile] [] ["y1"] "cap"))
      = some ProcessingState.processing ∧
    List.lookup "y1"
        (ytMapAfter (processSocialMediaPost allOkEnv [videoFile] [] ["y1"] "cap"))
      = some ProcessingState.posted ∧
    List.lookup "y1"
        (ytMapAfter (processSocialMediaPost respFailEnv [videoFile] [] ["y1"] "cap"))
      = some ProcessingState.error := by
  decide

/-- C9: the spec claims clicking an already selected account removes it and
the selection never holds two entries with the same business account id.  The
toggle compares `acc.id` with `account.instagram_business_account_id`, which
are different columns, so a second click on the same account appends a
duplicate instead of removing it. -/
theorem c9_second_click_duplicates :
    toggleInstagramAccount (toggleInstagramAccount [] sampleAccount) sampleAccount
      = [sampleAccount, sampleAccount] ∧
    (toggleInstagramAccount (toggleInstagramAccount [] sampleAccount) sampleAccount).map
        (fun acc => acc.instagram_business_account_id) = ["biz1", "biz1"] := by
  decide

/-- C10: with an empty media selection the entry point still creates the
parent post record but performs no upload, creates no container, launches no
workflow and writes no state entry; and the submit button disabled predicate
is true whenever the file list is empty, whatever the other inputs are. -/
theorem c10_empty_selection_creates_only_parent (env : Env)
    (accounts channels : List String) (caption : String)
    (selIg : List InstagramAccount) (selYt : List String) (youtubeTitle : String)
    (igm ytm : StateMap) :
    processSocialMediaPost env [] accounts channels caption = [Event.createPost] ∧
    igMapAfter (processSocialMediaPost env [] accounts channels caption) = [] ∧
    ytMapAfter (processSocialMediaPost env [] accounts channels caption) = [] ∧
    buttonDisabled selIg selYt [] youtubeTitle igm ytm = true := by
  have htr : processSocialMediaPost env [] accounts channels caption = [Event.createPost] := by
    unfold processSocialMediaPost
    cases env.createSocialMediaPost <;> simp
  refine ⟨htr, ?_, ?_, ?_⟩
  · rw [htr]; rfl
  · rw [htr]; rfl
  · simp [buttonDisabled]

/-- Witness for C10 at concrete selections and an arbitrary state of the other
form inputs. -/
theorem c10_empty_selection_creates_only_parent_witness :
    processSocialMediaPost allOkEnv [] ["a1"] ["y1"] "cap" = [Event.createPost] ∧
    igMapAfter (processSocialMediaPost allOkEnv [] ["a1"] ["y1"] "cap") = [] ∧
    ytMapAfter (processSocialMediaPost allOkEnv [] ["a1"] ["y1"] "cap") = [] ∧
    buttonDisabled [sampleAccount] ["y1"] [] "title" [] [] = true :=
  c10_empty_selection_creates_only_parent allOkEnv ["a1"] ["y1"] "cap"
    [sampleAccount] ["y1"] "title" [] []

end SocialQueue
